import Mathlib

/-!
# Verification of the audit-to-task workflow

Shallow embedding of the audit workflow of the Marketngsaas3 repository:
the issue classifier and task synthesizer (duplicated in `api/utils.py`
`create_tasks_from_audit` and `execution/run_audit.py`
`create_tasks_from_audit`), the batch orchestrator
(`execution/run_audit.py` `run_audit`) and the interactive on-read
finalize path (`api/index.py` `get_audit`).

The DataForSEO client (`api/dataforseo_client.py`) is imported by the
source but not present in the repository snapshot; its interface is
modelled from the specification (§4.4) as an abstract provider whose
behaviour the theorems quantify over.
-/

namespace Audit

/-- A page-level audit finding (`PageFinding` of the spec): a URL plus the
provider-supplied issue-flag dictionary.  The Python code reads flags with
`page_issues.get(flag)`, so a flag absent from the dictionary counts as
false; we model the dictionary as an association list of flag name to
boolean. -/
structure PageFinding where
  url : String
  issues : List (String × Bool)
deriving DecidableEq, Repr

/-- Truthiness of `issues.get(k)` on the Python dictionary: the value
stored under `k`, or false when `k` is absent. -/
def getFlag (issues : List (String × Bool)) (k : String) : Bool :=
  ((issues.find? (fun q => q.1 == k)).map Prod.snd).getD false

/-- The seven issue categories, in the declaration order of the `issues`
dictionary of both `create_tasks_from_audit` implementations
(`api/utils.py` lines 13-21, `execution/run_audit.py` lines 138-146).
Python dictionaries preserve insertion order, so `issues.items()` iterates
in exactly this order. -/
def categories : List String :=
  ["missing_title", "missing_description", "missing_h1", "slow_pages",
   "low_content", "broken_pages", "no_canonical"]

/-- Whether one page belongs to one category: the flag checks of the
per-page loop of both implementations (`api/utils.py` lines 23-40,
`execution/run_audit.py` lines 148-165).  The `broken_pages` check is
the disjunction of the three broken/4xx/5xx flags. -/
def pageHasCategory (p : PageFinding) (cat : String) : Bool :=
  if cat == "missing_title" then getFlag p.issues "no_title"
  else if cat == "missing_description" then getFlag p.issues "no_description"
  else if cat == "missing_h1" then getFlag p.issues "no_h1"
  else if cat == "slow_pages" then getFlag p.issues "slow_load"
  else if cat == "low_content" then getFlag p.issues "low_content"
  else if cat == "broken_pages" then
    getFlag p.issues "is_broken" || getFlag p.issues "is_4xx" || getFlag p.issues "is_5xx"
  else if cat == "no_canonical" then getFlag p.issues "no_canonical"
  else false

/-- The issue classifier (§4.1): the subset of the seven categories a
single page belongs to. -/
def classify (p : PageFinding) : List String :=
  categories.filter (pageHasCategory p)

/-- The URL bucket of one category: the URLs of the pages carrying that
category's flags, in the original page order (the per-page loop appends
`url` to `issues[cat]`). -/
def bucket (cat : String) (pages : List PageFinding) : List String :=
  pages.filterMap (fun p => if pageHasCategory p cat then some p.url else none)

/-- One task template: the static fields of the `templates` dictionaries. -/
structure Template where
  title : String
  description : String
  type : String
  role : String
  priority : Nat
deriving DecidableEq, Repr

/-- The task templates of `api/utils.py` lines 43-93.  The final branch is
the behaviour of the Python `.get` defaults (`templates.get(issue_type, {})`
then per-field defaults), never reached for the seven categories. -/
def templates_utils (cat : String) : Template :=
  if cat == "missing_title" then
    ⟨"Fix pages with missing title tags",
     "These pages have no title tag, which hurts SEO and CTR.",
     "technical", "optimization_specialist", 2⟩
  else if cat == "missing_description" then
    ⟨"Add meta descriptions",
     "These pages have no meta description.",
     "technical", "optimization_specialist", 1⟩
  else if cat == "missing_h1" then
    ⟨"Add H1 headings",
     "These pages have no H1 tag.",
     "technical", "optimization_specialist", 1⟩
  else if cat == "slow_pages" then
    ⟨"Improve slow loading pages",
     "These pages take > 3 seconds to load.",
     "technical", "optimization_specialist", 2⟩
  else if cat == "low_content" then
    ⟨"Expand thin content pages",
     "These pages have < 300 words.",
     "content", "content_creator", 1⟩
  else if cat == "broken_pages" then
    ⟨"Fix broken pages (4xx/5xx errors)",
     "These pages return error status codes.",
     "technical", "optimization_specialist", 3⟩
  else if cat == "no_canonical" then
    ⟨"Add canonical tags",
     "These pages have no canonical URL specified.",
     "technical", "optimization_specialist", 1⟩
  else ⟨"None", "", "technical", "optimization_specialist", 0⟩

/-- The task templates of `execution/run_audit.py` lines 168-218 (the
near-duplicate implementation). -/
def templates_run (cat : String) : Template :=
  if cat == "missing_title" then
    ⟨"Fix pages with missing title tags",
     "These pages have no title tag, which hurts SEO and CTR.",
     "technical", "optimization_specialist", 2⟩
  else if cat == "missing_description" then
    ⟨"Add meta descriptions",
     "These pages have no meta description.",
     "technical", "optimization_specialist", 1⟩
  else if cat == "missing_h1" then
    ⟨"Add H1 headings",
     "These pages have no H1 tag.",
     "technical", "optimization_specialist", 1⟩
  else if cat == "slow_pages" then
    ⟨"Improve slow loading pages",
     "These pages take > 3 seconds to load.",
     "technical", "optimization_specialist", 2⟩
  else if cat == "low_content" then
    ⟨"Expand thin content pages",
     "These pages have < 300 words.",
     "content", "content_creator", 1⟩
  else if cat == "broken_pages" then
    ⟨"Fix broken pages (4xx/5xx errors)",
     "These pages return error status codes.",
     "technical", "optimization_specialist", 3⟩
  else if cat == "no_canonical" then
    ⟨"Add canonical tags",
     "These pages have no canonical URL specified.",
     "technical", "optimization_specialist", 1⟩
  else ⟨"None", "", "technical", "optimization_specialist", 0⟩

/-- One checklist entry: `{'item': url, 'completed': False}`. -/
structure ChecklistItem where
  item : String
  completed : Bool
deriving DecidableEq, Repr

/-- One task-creation record (`task_data` of the source). -/
structure TaskData where
  campaign_id : String
  type : String
  title : String
  description : String
  checklist : List ChecklistItem
  assigned_role : String
  priority : Nat
  status : String
deriving DecidableEq, Repr

/-- Build the `task_data` record for one non-empty category
(`api/utils.py` lines 100-110 / `execution/run_audit.py` lines 225-235):
title carries the full URL count, checklist is the first 50 URLs
(`urls[:50]`), each entry not completed, status pending. -/
def mkTaskData (tmpl : String → Template) (cid cat : String)
    (urls : List String) : TaskData :=
  { campaign_id := cid
  , type := (tmpl cat).type
  , title := (tmpl cat).title ++ " (" ++ toString urls.length ++ " pages)"
  , description := (tmpl cat).description
  , checklist := (urls.take 50).map (fun u => ⟨u, false⟩)
  , assigned_role := (tmpl cat).role
  , priority := (tmpl cat).priority
  , status := "pending" }

/-- The sequence of task records the synthesizer builds: the loop
`for issue_type, urls in issues.items()` skipping empty buckets. -/
def synthTasks (tmpl : String → Template) (pages : List PageFinding)
    (cid : String) : List TaskData :=
  categories.filterMap (fun cat =>
    if (bucket cat pages).isEmpty then none
    else some (mkTaskData tmpl cid cat (bucket cat pages)))

/-- The task records emitted by `api/utils.py` `create_tasks_from_audit`
(which starts with `if not pages: return []`). -/
def emitted_utils (pages : List PageFinding) (cid : String) : List TaskData :=
  if pages.isEmpty then [] else synthTasks templates_utils pages cid

/-- The task records emitted by `execution/run_audit.py`
`create_tasks_from_audit` (no empty-input guard). -/
def emitted_run (pages : List PageFinding) (cid : String) : List TaskData :=
  synthTasks templates_run pages cid

/-- Outcome of one `tasks` insert against the store
(`client.table('tasks').insert(task_data).execute()`): the call returns a
row (`result.data` non-empty), returns no data, or raises an exception. -/
inductive InsertResult where
  | ok (row : TaskData)
  | noData
  | err (msg : String)
deriving DecidableEq, Repr

/-- Persistence loop of `api/utils.py` lines 112-117: the insert runs
inside try/except, an exception is logged and skipped, a returned row is
appended to `created`. -/
def persist_utils (store : TaskData → InsertResult) (tasks : List TaskData) :
    List TaskData :=
  tasks.foldl (fun created t =>
    match store t with
    | .ok row => created ++ [row]
    | .noData => created
    | .err _ => created) []

/-- Persistence loop of `execution/run_audit.py` lines 237-239: no
try/except, an exception propagates out of the loop.  First component:
the tasks for which an insert was attempted, in order; second component:
the returned `created` list, or the propagated exception message. -/
def persist_run (store : TaskData → InsertResult) :
    List TaskData → List TaskData × Except String (List TaskData)
  | [] => ([], .ok [])
  | t :: ts =>
    match store t with
    | .err m => ([t], .error m)
    | .ok row =>
      let q := persist_run store ts
      (t :: q.1, q.2.map (fun created => row :: created))
    | .noData =>
      let q := persist_run store ts
      (t :: q.1, q.2)

/-- The full `api/utils.py` `create_tasks_from_audit`: classify,
synthesize and persist, returning the successfully created records. -/
def create_tasks_from_audit_utils (store : TaskData → InsertResult)
    (pages : List PageFinding) (cid : String) : List TaskData :=
  if pages.isEmpty then [] else persist_utils store (synthTasks templates_utils pages cid)

/-- The full `execution/run_audit.py` `create_tasks_from_audit`:
classify, synthesize and persist with no per-task exception handling. -/
def create_tasks_from_audit_run (store : TaskData → InsertResult)
    (pages : List PageFinding) (cid : String) :
    List TaskData × Except String (List TaskData) :=
  persist_run store (synthTasks templates_run pages cid)

/-- Audit summary metrics, an opaque mapping. -/
abbrev Summary : Type := List (String × String)

/-- Result of `start_onpage_audit`.  Modelled from the spec:
`api/dataforseo_client.py` is not in the repository snapshot; §4.4 gives
`Provider.submit(domain, pageBudget) -> (success, jobId, costEstimate) or
(success=false, error)`. -/
inductive SubmitRes where
  | ok (task_id : String) (cost : Int)
  | err (msg : String)
deriving DecidableEq

/-- Result of a provider fetch call.  Modelled from the spec: §4.4 gives
`Provider.summary(jobId) -> (success, summary) or (success=false, error)`
and likewise for `Provider.findings(jobId, limit)`. -/
inductive FetchRes (α : Type) where
  | ok (val : α)
  | err (msg : String)
deriving DecidableEq

/-- The third-party audit provider.  Modelled from the spec (§4.4):
the client module is absent from the snapshot, so the provider is an
abstract collaborator; `status` is indexed by the attempt number so one
behaviour describes every poll of a run. -/
structure Provider where
  submit : String → Nat → SubmitRes
  status : String → Nat → Bool
  summary : String → FetchRes Summary
  findings : String → Nat → FetchRes (List PageFinding)

/-- Reading `summary.get('summary', ...)` with an empty default, as done
at `api/index.py` line 692 on the raw fetch result: the summary mapping
on success, the empty mapping when the failure response has no `summary`
key. -/
def summaryField : FetchRes Summary → Summary
  | .ok s => s
  | .err _ => ([] : List (String × String))

/-- Reading `pages_result.get('pages', [])`, as done at `api/index.py`
line 681: the page list on success, empty when the failure response has
no `pages` key. -/
def pagesField : FetchRes (List PageFinding) → List PageFinding
  | .ok ps => ps
  | .err _ => []

/-- Python truthiness of an optional identifier (`if campaign_id and
supabase`, `audit.get('dataforseo_task_id')`): present and non-empty. -/
def strTruthy : Option String → Bool
  | none => false
  | some s => !s.isEmpty

/-- The poll loop of `run_audit` (`execution/run_audit.py` lines 72-82):
starting at a given attempt index with a remaining budget, returns how
many status calls were made and whether readiness was observed.  The
loop breaks on the first ready status and otherwise exhausts the budget. -/
def poll (status : Nat → Bool) : Nat → Nat → Nat × Bool
  | _, 0 => (0, false)
  | attempt, r + 1 =>
    if status attempt then (1, true)
    else
      let q := poll status (attempt + 1) r
      (q.1 + 1, q.2)

/-- The attempt ceiling of the batch runner (`max_attempts = 60`). -/
def maxAttempts : Nat := 60

/-- Result dictionary of `run_audit`: the structured failure
`(success=False, error)`, the structured success of lines 122-128, or an
exception that escaped the function (possible only from the unguarded
store calls of steps 4-5). -/
inductive RunOutcome where
  | failure (error : String)
  | ok (task_id : String) (summary : Summary) (pages_count : Nat)
      (tasks_created : Nat)
  | raised (msg : String)
deriving DecidableEq

/-- Observable store interaction of one `run_audit` call: number of
status polls, the `tasks` rows whose insert was attempted, and the number
of `audits` rows inserted. -/
structure Trace where
  statusCalls : Nat
  taskInsertAttempts : List TaskData
  auditInserts : Nat
deriving DecidableEq

/-- The batch orchestrator `run_audit` (`execution/run_audit.py` lines
46-128): submit, poll up to 60 attempts, fetch summary then findings
(limit 100), then — only when a campaign id is supplied — create tasks
and insert the audit record.  The `audits` insert is modelled as always
succeeding; a `tasks` insert exception propagates uncaught. -/
def run_audit (prov : Provider) (store : TaskData → InsertResult)
    (domain : String) (max_pages : Nat) (campaign_id : Option String) :
    RunOutcome × Trace :=
  match prov.submit domain max_pages with
  | .err e => (.failure e, ⟨0, [], 0⟩)
  | .ok tid _cost =>
    let pr := poll (prov.status tid) 0 maxAttempts
    if !pr.2 then (.failure "Audit timeout", ⟨pr.1, [], 0⟩)
    else
      match prov.summary tid with
      | .err e => (.failure e, ⟨pr.1, [], 0⟩)
      | .ok summ =>
        match prov.findings tid 100 with
        | .err e => (.failure e, ⟨pr.1, [], 0⟩)
        | .ok pages =>
          if strTruthy campaign_id then
            let cid := campaign_id.getD ""
            let pres := persist_run store (synthTasks templates_run pages cid)
            match pres.2 with
            | .error m => (.raised m, ⟨pr.1, pres.1, 0⟩)
            | .ok created =>
              (.ok tid summ pages.length created.length, ⟨pr.1, pres.1, 1⟩)
          else (.ok tid summ pages.length 0, ⟨pr.1, [], 0⟩)

/-- One persisted `audits` row as read and updated by `get_audit`
(`api/index.py`). -/
structure AuditRow where
  status : String
  dataforseo_task_id : Option String
  campaign_id : String
  summary : Summary
  results_pages : List PageFinding
deriving DecidableEq

/-- The finalize body of `get_audit` (`api/index.py` lines 675-699),
reached when the lazily polled status is ready: fetch summary and
findings reading the fields with defaults and WITHOUT checking the
success flag, create tasks via the `api/utils.py` synthesizer, then
update the row to `completed`.  Returns the updated row and the created
task records. -/
def finalizeAudit (prov : Provider) (store : TaskData → InsertResult)
    (audit : AuditRow) (tid : String) : AuditRow × List TaskData :=
  let summ := summaryField (prov.summary tid)
  let pages := pagesField (prov.findings tid 100)
  let created := create_tasks_from_audit_utils store pages audit.campaign_id
  ({ audit with
      status := "completed",
      summary := summ,
      results_pages := pages }, created)

/-- One `GET /api/audits/<id>` read (`api/index.py` lines 659-705) at
poll index `t`: the lazy status check runs only when the persisted status
is `crawling` and a provider task id is present; a not-ready status
leaves the row untouched.  Returns the row the caller sees and the task
records created by this read. -/
def get_audit (prov : Provider) (store : TaskData → InsertResult)
    (t : Nat) (audit : AuditRow) : AuditRow × List TaskData :=
  if audit.status == "crawling" && strTruthy audit.dataforseo_task_id then
    let tid := audit.dataforseo_task_id.getD ""
    if prov.status tid t then finalizeAudit prov store audit tid
    else (audit, [])
  else (audit, [])

/-- Repeated `GET /api/audits/<id>` reads: the row after `n` successive
reads, the `k`-th read polling the provider at index `k`. -/
def get_audit_reads (prov : Provider) (store : TaskData → InsertResult)
    (audit : AuditRow) : Nat → AuditRow
  | 0 => audit
  | n + 1 => (get_audit prov store n (get_audit_reads prov store audit n)).1

/-! Concrete fixtures used by witnesses and counterexamples. -/

/-- A page whose only issue flag is a missing title. -/
def pageNoTitle : PageFinding := ⟨"https://e.com/a", [("no_title", true)]⟩

/-- Seventy-three pages that all miss their title tag. -/
def pages73 : List PageFinding :=
  (List.range 73).map (fun i => ⟨"https://e.com/p" ++ toString i, [("no_title", true)]⟩)

/-- Two pages in two distinct issue categories. -/
def pagesTwoCats : List PageFinding :=
  [⟨"https://e.com/1", [("no_title", true)]⟩,
   ⟨"https://e.com/2", [("no_description", true)]⟩]

/-- A store on which every insert succeeds and echoes the record. -/
def storeOk : TaskData → InsertResult := fun t => .ok t

/-- A store whose insert raises on the missing-title task and succeeds on
every other task. -/
def storeFailTitle : TaskData → InsertResult := fun t =>
  if t.title == "Fix pages with missing title tags (1 pages)" then .err "db down"
  else .ok t

/-- A provider that accepts the submission but never reports readiness. -/
def provNeverReady : Provider :=
  ⟨fun _ _ => .ok "T1" 0, fun _ _ => false,
   fun _ => .ok [("pages_crawled", "10")], fun _ _ => .ok [pageNoTitle]⟩

/-- A provider that is immediately ready but whose summary fetch fails;
the findings fetch returns one flagged page. -/
def provSummaryErr : Provider :=
  ⟨fun _ _ => .ok "T1" 0, fun _ _ => true,
   fun _ => .err "summary boom", fun _ _ => .ok [pageNoTitle]⟩

/-- A provider that rejects the submission. -/
def provSubmitErr : Provider :=
  ⟨fun _ _ => .err "quota exceeded", fun _ _ => false,
   fun _ => .ok [], fun _ _ => .ok []⟩

/-- A persisted audit row still in the crawling state. -/
def rowCrawling : AuditRow :=
  ⟨"crawling", some "T1", "c1", [("pages_crawled", "10")], []⟩

/-- A persisted audit row already completed. -/
def rowCompleted : AuditRow :=
  ⟨"completed", some "T1", "c1", [("pages_crawled", "10")], [pageNoTitle]⟩

/-! Helper lemmas shared by several claims. -/

/-- A filterMap whose function keeps exactly the elements failing a test
is the map of the builder over the filter of the negated test. -/
theorem filterMap_ite_none {α β : Type} (q : α → Bool) (g : α → β)
    (l : List α) :
    l.filterMap (fun a => if q a then none else some (g a))
      = (l.filter (fun a => !q a)).map g := by
  induction l with
  | nil => rfl
  | cons a l ih =>
    cases h : q a <;> simp [List.filterMap_cons, List.filter_cons, h, ih]

/-- The synthesizer emits the per-category task record of each category
with a non-empty bucket, in category declaration order. -/
theorem synthTasks_eq (tmpl : String → Template) (pages : List PageFinding)
    (cid : String) :
    synthTasks tmpl pages cid
      = (categories.filter (fun c => !(bucket c pages).isEmpty)).map
          (fun c => mkTaskData tmpl cid c (bucket c pages)) :=
  filterMap_ite_none _ _ _

/-- The empty-input guard of the utils implementation changes nothing:
with no pages every bucket is empty and the loop emits nothing. -/
theorem emitted_utils_eq (pages : List PageFinding) (cid : String) :
    emitted_utils pages cid = synthTasks templates_utils pages cid := by
  cases pages with
  | nil => rfl
  | cons p l => rfl

/-- Membership of the per-category record in the synthesizer output. -/
theorem mkTaskData_mem_synthTasks (tmpl : String → Template)
    (pages : List PageFinding) (cid cat : String)
    (hcat : cat ∈ categories) (hne : (bucket cat pages).isEmpty = false) :
    mkTaskData tmpl cid cat (bucket cat pages) ∈ synthTasks tmpl pages cid := by
  unfold synthTasks
  exact List.mem_filterMap.mpr ⟨cat, hcat, by rw [hne]; rfl⟩

/-- Every record the synthesizer emits is the record of some category
with a non-empty bucket. -/
theorem synthTasks_mem_elim (tmpl : String → Template)
    (pages : List PageFinding) (cid : String) (t : TaskData)
    (ht : t ∈ synthTasks tmpl pages cid) :
    ∃ cat ∈ categories, (bucket cat pages).isEmpty = false
      ∧ t = mkTaskData tmpl cid cat (bucket cat pages) := by
  unfold synthTasks at ht
  obtain ⟨cat, hcat, heq⟩ := List.mem_filterMap.mp ht
  refine ⟨cat, hcat, ?_, ?_⟩
  · cases h : (bucket cat pages).isEmpty
    · rfl
    · rw [h] at heq; exact absurd heq (by simp)
  · cases h : (bucket cat pages).isEmpty
    · rw [h] at heq; simp at heq; exact heq.symm
    · rw [h] at heq; exact absurd heq (by simp)

/-! The claims. -/

/-- C1: for every sequence of PageFindings, the synthesizer emits exactly
one TaskRecord per category with at least one matching URL, in the fixed
declaration order, and none for a category with no matching URL; hence
the number of TaskRecords equals the number of the seven categories with
a non-empty bucket, never more than 7.  Both duplicated implementations
satisfy this. -/
theorem c1_one_task_per_nonempty_category (pages : List PageFinding)
    (cid : String) :
    emitted_utils pages cid
        = (categories.filter (fun c => !(bucket c pages).isEmpty)).map
            (fun c => mkTaskData templates_utils cid c (bucket c pages))
    ∧ emitted_run pages cid
        = (categories.filter (fun c => !(bucket c pages).isEmpty)).map
            (fun c => mkTaskData templates_run cid c (bucket c pages))
    ∧ (emitted_utils pages cid).length
        = (categories.filter (fun c => !(bucket c pages).isEmpty)).length
    ∧ (emitted_run pages cid).length
        = (categories.filter (fun c => !(bucket c pages).isEmpty)).length
    ∧ (emitted_utils pages cid).length ≤ 7
    ∧ (emitted_run pages cid).length ≤ 7 := by
  have hu := (emitted_utils_eq pages cid).trans
    (synthTasks_eq templates_utils pages cid)
  have hr : emitted_run pages cid
      = (categories.filter (fun c => !(bucket c pages).isEmpty)).map
          (fun c => mkTaskData templates_run cid c (bucket c pages)) :=
    synthTasks_eq templates_run pages cid
  have hlen : (categories.filter (fun c => !(bucket c pages).isEmpty)).length ≤ 7 := by
    calc (categories.filter (fun c => !(bucket c pages).isEmpty)).length
        ≤ categories.length := List.length_filter_le _ _
      _ = 7 := rfl
  refine ⟨hu, hr, ?_, ?_, ?_, ?_⟩
  · rw [hu, List.length_map]
  · rw [hr, List.length_map]
  · rw [hu, List.length_map]; exact hlen
  · rw [hr, List.length_map]; exact hlen

/-- C2: the classifier returns exactly the subset of the seven fixed
categories whose issue flag is set; `broken_pages` is included if and
only if any of the broken/4xx/5xx flags is set; every returned category
is one of the seven; a flag absent from the issue dictionary counts as
false, never an error. -/
theorem c2_classifier_flags (p : PageFinding) :
    (("missing_title" ∈ classify p ↔ getFlag p.issues "no_title" = true)
     ∧ ("missing_description" ∈ classify p
          ↔ getFlag p.issues "no_description" = true)
     ∧ ("missing_h1" ∈ classify p ↔ getFlag p.issues "no_h1" = true)
     ∧ ("slow_pages" ∈ classify p ↔ getFlag p.issues "slow_load" = true)
     ∧ ("low_content" ∈ classify p ↔ getFlag p.issues "low_content" = true)
     ∧ ("broken_pages" ∈ classify p
          ↔ (getFlag p.issues "is_broken" || getFlag p.issues "is_4xx"
              || getFlag p.issues "is_5xx") = true)
     ∧ ("no_canonical" ∈ classify p ↔ getFlag p.issues "no_canonical" = true))
    ∧ (∀ c, c ∈ classify p → c ∈ categories)
    ∧ (∀ k, p.issues.find? (fun q => q.1 == k) = none
        → getFlag p.issues k = false) := by
  refine ⟨⟨?_, ?_, ?_, ?_, ?_, ?_, ?_⟩, ?_, ?_⟩
  · simp [classify, List.mem_filter, categories, pageHasCategory]
  · simp [classify, List.mem_filter, categories, pageHasCategory]
  · simp [classify, List.mem_filter, categories, pageHasCategory]
  · simp [classify, List.mem_filter, categories, pageHasCategory]
  · simp [classify, List.mem_filter, categories, pageHasCategory]
  · simp [classify, List.mem_filter, categories, pageHasCategory]
  · simp [classify, List.mem_filter, categories, pageHasCategory]
  · intro c hc
    exact (List.mem_filter.mp hc).1
  · intro k hk
    unfold getFlag
    rw [hk]
    rfl

/-- Witness for C2 at a concrete page: one set flag puts the page in the
matching category, and a page with an empty issue dictionary triggers
nothing. -/
theorem c2_witness :
    "missing_title" ∈ classify pageNoTitle
    ∧ getFlag (PageFinding.mk "u" []).issues "no_title" = false :=
  ⟨(c2_classifier_flags pageNoTitle).1.1.mpr (by decide),
   (c2_classifier_flags ⟨"u", []⟩).2.2 "no_title" (by decide)⟩

/-- The checklist built for a category caps at 50 entries. -/
theorem mkTaskData_checklist_le (tmpl : String → Template)
    (cid cat : String) (urls : List String) :
    (mkTaskData tmpl cid cat urls).checklist.length ≤ 50 := by
  simp only [mkTaskData, List.length_map, List.length_take]
  exact Nat.min_le_left _ _

/-- C3: for every non-empty category bucket of n URLs, the emitted
TaskRecord's checklist is exactly the first 50 URLs in original order
(hence min n 50 entries), each not completed; no emitted TaskRecord of
either implementation has more than 50 checklist entries. -/
theorem c3_checklist_truncation (pages : List PageFinding) (cid cat : String)
    (hcat : cat ∈ categories) (hne : (bucket cat pages).isEmpty = false) :
    (∃ t ∈ emitted_utils pages cid,
       t.checklist = ((bucket cat pages).take 50).map
           (fun u => (⟨u, false⟩ : ChecklistItem))
       ∧ t.checklist.length = min (bucket cat pages).length 50
       ∧ ∀ e ∈ t.checklist, e.completed = false)
    ∧ (∀ t ∈ emitted_utils pages cid, t.checklist.length ≤ 50)
    ∧ (∀ t ∈ emitted_run pages cid, t.checklist.length ≤ 50) := by
  refine ⟨?_, ?_, ?_⟩
  · refine ⟨mkTaskData templates_utils cid cat (bucket cat pages), ?_, rfl, ?_, ?_⟩
    · rw [emitted_utils_eq]
      exact mkTaskData_mem_synthTasks templates_utils pages cid cat hcat hne
    · simp only [mkTaskData, List.length_map, List.length_take]
      exact Nat.min_comm _ _
    · intro e he
      obtain ⟨u, _, heq⟩ := List.mem_map.mp he
      rw [← heq]
  · intro t ht
    rw [emitted_utils_eq] at ht
    obtain ⟨c, _, _, heq⟩ := synthTasks_mem_elim templates_utils pages cid t ht
    rw [heq]
    exact mkTaskData_checklist_le _ _ _ _
  · intro t ht
    obtain ⟨c, _, _, heq⟩ := synthTasks_mem_elim templates_run pages cid t ht
    rw [heq]
    exact mkTaskData_checklist_le _ _ _ _

/-- Witness for C3 at 73 affected pages: the missing-title bucket holds
73 URLs and the emitted checklist has exactly min 73 50 = 50 entries. -/
theorem c3_witness :
    ("missing_title" ∈ categories
      ∧ (bucket "missing_title" pages73).isEmpty = false
      ∧ (bucket "missing_title" pages73).length = 73
      ∧ min (bucket "missing_title" pages73).length 50 = 50)
    ∧ ((∃ t ∈ emitted_utils pages73 "c",
         t.checklist = ((bucket "missing_title" pages73).take 50).map
             (fun u => (⟨u, false⟩ : ChecklistItem))
         ∧ t.checklist.length = min (bucket "missing_title" pages73).length 50
         ∧ ∀ e ∈ t.checklist, e.completed = false)
       ∧ (∀ t ∈ emitted_utils pages73 "c", t.checklist.length ≤ 50)
       ∧ (∀ t ∈ emitted_run pages73 "c", t.checklist.length ≤ 50)) :=
  ⟨⟨by decide, by decide, by decide, by decide⟩,
   c3_checklist_truncation pages73 "c" "missing_title" (by decide) (by decide)⟩

/-- C7: a status read on a job whose persisted status is already
completed is a no-op: the lazy finalize block is skipped, no TaskRecord
is created and the row (its summary included) is returned unchanged. -/
theorem c7_finalize_idempotent (prov : Provider)
    (store : TaskData → InsertResult) (t : Nat) (audit : AuditRow)
    (h : audit.status = "completed") :
    get_audit prov store t audit = (audit, []) := by
  unfold get_audit
  rw [h]
  rfl

/-- Witness for C7: a second read of a concrete completed row changes
nothing and creates nothing. -/
theorem c7_witness :
    rowCompleted.status = "completed"
    ∧ get_audit provSummaryErr storeOk 0 rowCompleted = (rowCompleted, []) :=
  ⟨rfl, c7_finalize_idempotent provSummaryErr storeOk 0 rowCompleted rfl⟩

/-- C8: the two duplicated implementations use identical templates, so
they agree on every category's priority — including missing_title, which
is 2 in both — with the reference values missing_description=1,
missing_h1=1, no_canonical=1, slow_pages=2, missing_title=2,
low_content=1, broken_pages=3, and 3 is the highest priority in use;
every emitted TaskRecord carries its category's template priority. -/
theorem c8_priorities_agree :
    (∀ cat, templates_utils cat = templates_run cat)
    ∧ (templates_utils "missing_description").priority = 1
    ∧ (templates_utils "missing_h1").priority = 1
    ∧ (templates_utils "no_canonical").priority = 1
    ∧ (templates_utils "slow_pages").priority = 2
    ∧ (templates_utils "missing_title").priority = 2
    ∧ (templates_run "missing_title").priority = 2
    ∧ (templates_utils "low_content").priority = 1
    ∧ (templates_utils "broken_pages").priority = 3
    ∧ (∀ cat, (templates_utils cat).priority ≤ 3)
    ∧ (∀ tmpl pages cid t, t ∈ synthTasks tmpl pages cid
        → ∃ cat ∈ categories, t.priority = (tmpl cat).priority) := by
  refine ⟨fun _ => rfl, by decide, by decide, by decide, by decide, by decide,
    by decide, by decide, by decide, ?_, ?_⟩
  · intro cat
    unfold templates_utils
    repeat' split
    all_goals decide
  · intro tmpl pages cid t ht
    obtain ⟨cat, hcat, _, heq⟩ := synthTasks_mem_elim tmpl pages cid t ht
    exact ⟨cat, hcat, by rw [heq]; rfl⟩

/-- Witness for C8: the emitted missing-title record of a concrete run
carries a template priority. -/
theorem c8_witness :
    ∃ cat ∈ categories,
      (mkTaskData templates_utils "c" "missing_title"
          (bucket "missing_title" [pageNoTitle])).priority
        = (templates_utils cat).priority := by
  obtain ⟨-, -, -, -, -, -, -, -, -, -, hD⟩ := c8_priorities_agree
  exact hD templates_utils [pageNoTitle] "c" _
    (mkTaskData_mem_synthTasks templates_utils [pageNoTitle] "c"
      "missing_title" (by decide) (by decide))

/-- C9: the title of the emitted TaskRecord of a non-empty category ends
with the full affected-page count, computed before checklist truncation,
in both implementations; the checklist itself stays capped at 50. -/
theorem c9_title_page_count (pages : List PageFinding) (cid cat : String)
    (hcat : cat ∈ categories) (hne : (bucket cat pages).isEmpty = false) :
    (∃ t ∈ emitted_utils pages cid,
       t.title = (templates_utils cat).title ++ " ("
           ++ toString (bucket cat pages).length ++ " pages)"
       ∧ t.checklist.length ≤ 50)
    ∧ (∃ t ∈ emitted_run pages cid,
       t.title = (templates_run cat).title ++ " ("
           ++ toString (bucket cat pages).length ++ " pages)"
       ∧ t.checklist.length ≤ 50) := by
  constructor
  · refine ⟨mkTaskData templates_utils cid cat (bucket cat pages), ?_, ?_, ?_⟩
    · rw [emitted_utils_eq]
      exact mkTaskData_mem_synthTasks templates_utils pages cid cat hcat hne
    · rfl
    · exact mkTaskData_checklist_le _ _ _ _
  · refine ⟨mkTaskData templates_run cid cat (bucket cat pages), ?_, ?_, ?_⟩
    · exact mkTaskData_mem_synthTasks templates_run pages cid cat hcat hne
    · rfl
    · exact mkTaskData_checklist_le _ _ _ _

/-- Witness for C9 at 73 affected pages: the title carries the count 73
although the checklist kept at most 50 URLs. -/
theorem c9_witness :
    ((bucket "missing_title" pages73).length = 73)
    ∧ ((∃ t ∈ emitted_utils pages73 "c",
         t.title = (templates_utils "missing_title").title ++ " ("
             ++ toString (bucket "missing_title" pages73).length ++ " pages)"
         ∧ t.checklist.length ≤ 50)
       ∧ (∃ t ∈ emitted_run pages73 "c",
         t.title = (templates_run "missing_title").title ++ " ("
             ++ toString (bucket "missing_title" pages73).length ++ " pages)"
         ∧ t.checklist.length ≤ 50)) :=
  ⟨by decide,
   c9_title_page_count pages73 "c" "missing_title" (by decide) (by decide)⟩

/-- A status source that never reports readiness makes the poll loop do
exactly its remaining budget of calls and report not ready. -/
theorem poll_never (s : Nat → Bool) (h : ∀ n, s n = false) :
    ∀ (r a : Nat), poll s a r = (r, false) := by
  intro r
  induction r with
  | zero => intro a; rfl
  | succ r ih =>
    intro a
    unfold poll
    rw [h a]
    simp [ih (a + 1)]

/-- C4 as amended: in the batch runner, a provider that never reports
ready drives the run to the structured failure with the timeout-specific
reason "Audit timeout" — distinct from any pass-through provider error —
after exactly the 60-attempt ceiling, with no store write.  (The
interactive on-read variant has no such ceiling; see the
counterexample.) -/
theorem c4_amended_batch_timeout (prov : Provider)
    (store : TaskData → InsertResult) (domain : String) (mp : Nat)
    (cid : Option String) (tid : String) (cost : Int)
    (hsub : prov.submit domain mp = .ok tid cost)
    (hnever : ∀ n, prov.status tid n = false) :
    run_audit prov store domain mp cid
      = (.failure "Audit timeout", ⟨maxAttempts, [], 0⟩)
    ∧ maxAttempts = 60 := by
  refine ⟨?_, rfl⟩
  have hp := poll_never (prov.status tid) hnever maxAttempts 0
  unfold run_audit
  rw [hsub]
  simp [hp]

/-- Witness for C4's amended statement on a concrete never-ready
provider. -/
theorem c4_witness :
    provNeverReady.submit "example.com" 200 = .ok "T1" 0
    ∧ (run_audit provNeverReady storeOk "example.com" 200 (some "c1")
        = (.failure "Audit timeout", ⟨maxAttempts, [], 0⟩)
      ∧ maxAttempts = 60) :=
  ⟨rfl, c4_amended_batch_timeout provNeverReady storeOk "example.com" 200
    (some "c1") "T1" 0 rfl (fun _ => rfl)⟩

/-- Counterexample to C4 as stated: in the interactive on-read variant a
never-ready provider leaves the persisted job in the crawling state after
60 reads — and after 61 — it never reaches the failed status at the
attempt ceiling (there is no ceiling in `get_audit`). -/
theorem c4_counterexample :
    rowCrawling.status = "crawling"
    ∧ (get_audit_reads provNeverReady storeOk rowCrawling 60).status
        = "crawling"
    ∧ (get_audit_reads provNeverReady storeOk rowCrawling 60).status
        ≠ "failed"
    ∧ (get_audit_reads provNeverReady storeOk rowCrawling 61).status
        ≠ "failed" := by
  have hfix : ∀ n, get_audit_reads provNeverReady storeOk rowCrawling n
      = rowCrawling := by
    intro n
    induction n with
    | zero => rfl
    | succ n ih =>
      unfold get_audit_reads
      rw [ih]
      rfl
  refine ⟨?_, ?_, ?_, ?_⟩
  · rfl
  · rw [hfix 60]; rfl
  · rw [hfix 60]; decide
  · rw [hfix 61]; decide

/-- C5 as amended: in the batch runner a summary- or findings-fetch
failure after readiness yields the structured failure carrying the
provider's error message, with no store write.  (The interactive
finalize path never consults the success flag; see the counterexample.) -/
theorem c5_amended_batch_fetch_failure (prov : Provider)
    (store : TaskData → InsertResult) (domain : String) (mp : Nat)
    (cid : Option String) (tid : String) (cost : Int)
    (hsub : prov.submit domain mp = .ok tid cost)
    (hready : (poll (prov.status tid) 0 maxAttempts).2 = true) :
    (∀ e, prov.summary tid = .err e →
       run_audit prov store domain mp cid
         = (.failure e, ⟨(poll (prov.status tid) 0 maxAttempts).1, [], 0⟩))
    ∧ (∀ s e, prov.summary tid = .ok s → prov.findings tid 100 = .err e →
       run_audit prov store domain mp cid
         = (.failure e, ⟨(poll (prov.status tid) 0 maxAttempts).1, [], 0⟩)) := by
  constructor
  · intro e he
    unfold run_audit
    rw [hsub]
    simp [hready, he]
  · intro s e hs hf
    unfold run_audit
    rw [hsub]
    simp [hready, hs, hf]

/-- Witness for C5's amended statement on a concrete provider whose
summary fetch fails after readiness. -/
theorem c5_witness :
    provSummaryErr.submit "example.com" 200 = .ok "T1" 0
    ∧ (poll (provSummaryErr.status "T1") 0 maxAttempts).2 = true
    ∧ run_audit provSummaryErr storeOk "example.com" 200 (some "c1")
        = (.failure "summary boom",
            ⟨(poll (provSummaryErr.status "T1") 0 maxAttempts).1, [], 0⟩) :=
  ⟨rfl, by decide,
   (c5_amended_batch_fetch_failure provSummaryErr storeOk "example.com" 200
      (some "c1") "T1" 0 rfl (by decide)).1 "summary boom" rfl⟩

/-- Counterexample to C5 as stated: on the interactive finalize path a
failed summary fetch (success=false) does not move the job to failed —
the row is marked completed with an empty summary, and the tasks built
from the separately fetched findings are still created. -/
theorem c5_counterexample :
    (get_audit provSummaryErr storeOk 0 rowCrawling).1.status = "completed"
    ∧ (get_audit provSummaryErr storeOk 0 rowCrawling).1.status ≠ "failed"
    ∧ (get_audit provSummaryErr storeOk 0 rowCrawling).1.summary = []
    ∧ ((get_audit provSummaryErr storeOk 0 rowCrawling).2).length = 1 :=
  ⟨rfl, by decide, rfl, rfl⟩

/-- The utils persistence loop with an arbitrary starting accumulator. -/
theorem persist_utils_foldl (store : TaskData → InsertResult) :
    ∀ (tasks acc : List TaskData),
      tasks.foldl (fun created t =>
          match store t with
          | .ok row => created ++ [row]
          | .noData => created
          | .err _ => created) acc
        = acc ++ tasks.filterMap (fun t =>
            match store t with
            | .ok row => some row
            | .noData => none
            | .err _ => none) := by
  intro tasks
  induction tasks with
  | nil => intro acc; simp
  | cons t ts ih =>
    intro acc
    cases h : store t <;>
      simp [List.foldl_cons, List.filterMap_cons, h, ih]

/-- The run-side persistence loop stops at the first raising insert:
every insert before it succeeded, the failing one is attempted, nothing
after it is attempted, and the exception propagates. -/
theorem persist_run_abort (store : TaskData → InsertResult) :
    ∀ (pre : List TaskData) (t : TaskData) (ts : List TaskData) (m : String),
      (∀ u ∈ pre, ∃ row, store u = .ok row) → store t = .err m →
      persist_run store (pre ++ t :: ts) = (pre ++ [t], .error m) := by
  intro pre
  induction pre with
  | nil =>
    intro t ts m _ hm
    simp [persist_run, hm]
  | cons u pre ih =>
    intro t ts m hok hm
    obtain ⟨row, hrow⟩ := hok u (by simp)
    have hrest := ih t ts m (fun v hv => hok v (by simp [hv])) hm
    simp [persist_run, hrow, hrest, Except.map]

/-- C6 as amended: the api/utils.py synthesizer is partial-failure
tolerant — a raising or empty insert is skipped and the remaining
records are still attempted, the returned list being exactly the
successfully created rows in order.  The execution/run_audit.py
synthesizer is not: its first raising insert aborts the loop, the
remaining records are never attempted and the exception propagates. -/
theorem c6_amended_partial_failure :
    (∀ (store : TaskData → InsertResult) (tasks : List TaskData),
       persist_utils store tasks
         = tasks.filterMap (fun t =>
             match store t with
             | .ok row => some row
             | .noData => none
             | .err _ => none))
    ∧ (∀ (store : TaskData → InsertResult) (pre : List TaskData)
         (t : TaskData) (ts : List TaskData) (m : String),
       (∀ u ∈ pre, ∃ row, store u = .ok row) → store t = .err m →
       persist_run store (pre ++ t :: ts) = (pre ++ [t], .error m)) := by
  constructor
  · intro store tasks
    unfold persist_utils
    rw [persist_utils_foldl store tasks []]
    rfl
  · exact persist_run_abort

/-- Witness for C6's amended statement: with a store raising on the
first record, the utils loop still creates the second record while the
run loop aborts before it. -/
theorem c6_witness :
    storeFailTitle (mkTaskData templates_run "c" "missing_title"
        (bucket "missing_title" pagesTwoCats)) = .err "db down"
    ∧ persist_run storeFailTitle
        ([] ++ mkTaskData templates_run "c" "missing_title"
            (bucket "missing_title" pagesTwoCats)
          :: [mkTaskData templates_run "c" "missing_description"
            (bucket "missing_description" pagesTwoCats)])
      = ([] ++ [mkTaskData templates_run "c" "missing_title"
            (bucket "missing_title" pagesTwoCats)], .error "db down") :=
  ⟨by decide,
   (c6_amended_partial_failure).2 storeFailTitle []
     (mkTaskData templates_run "c" "missing_title"
       (bucket "missing_title" pagesTwoCats))
     [mkTaskData templates_run "c" "missing_description"
       (bucket "missing_description" pagesTwoCats)]
     "db down" (by intro u hu; exact absurd hu (by simp)) (by decide)⟩

/-- Counterexample to C6 as stated: on two non-empty categories with the
first insert raising, the run_audit.py implementation propagates the
exception, attempts only one of the two emitted records and returns no
list, while the utils implementation skips the failure and creates the
second record. -/
theorem c6_counterexample :
    (synthTasks templates_run pagesTwoCats "c").length = 2
    ∧ (create_tasks_from_audit_run storeFailTitle pagesTwoCats "c").2
        = .error "db down"
    ∧ (create_tasks_from_audit_run storeFailTitle pagesTwoCats "c").1.length = 1
    ∧ (create_tasks_from_audit_utils storeFailTitle pagesTwoCats "c").length = 1 :=
  ⟨rfl, rfl, rfl, rfl⟩

/-- C10: every failure path of the batch runner — submission failure,
poll timeout, summary fetch failure, findings fetch failure — returns
the structured failure result and attempts no store write (no tasks row,
no audits row); a store write is attempted only when every provider step
succeeded and a campaign id was supplied. -/
theorem c10_failure_paths_no_writes (prov : Provider)
    (store : TaskData → InsertResult) (domain : String) (mp : Nat)
    (cid : Option String) :
    (∀ e, prov.submit domain mp = .err e →
       run_audit prov store domain mp cid = (.failure e, ⟨0, [], 0⟩))
    ∧ (∀ tid cost, prov.submit domain mp = .ok tid cost →
        (poll (prov.status tid) 0 maxAttempts).2 = false →
        run_audit prov store domain mp cid
          = (.failure "Audit timeout",
              ⟨(poll (prov.status tid) 0 maxAttempts).1, [], 0⟩))
    ∧ (∀ tid cost e, prov.submit domain mp = .ok tid cost →
        (poll (prov.status tid) 0 maxAttempts).2 = true →
        prov.summary tid = .err e →
        run_audit prov store domain mp cid
          = (.failure e, ⟨(poll (prov.status tid) 0 maxAttempts).1, [], 0⟩))
    ∧ (∀ tid cost s e, prov.submit domain mp = .ok tid cost →
        (poll (prov.status tid) 0 maxAttempts).2 = true →
        prov.summary tid = .ok s → prov.findings tid 100 = .err e →
        run_audit prov store domain mp cid
          = (.failure e, ⟨(poll (prov.status tid) 0 maxAttempts).1, [], 0⟩))
    ∧ (((run_audit prov store domain mp cid).2.taskInsertAttempts ≠ []
          ∨ (run_audit prov store domain mp cid).2.auditInserts ≠ 0)
        → strTruthy cid = true
          ∧ ∃ tid cost s pages,
              prov.submit domain mp = .ok tid cost
              ∧ (poll (prov.status tid) 0 maxAttempts).2 = true
              ∧ prov.summary tid = .ok s
              ∧ prov.findings tid 100 = .ok pages) := by
  refine ⟨?_, ?_, ?_, ?_, ?_⟩
  · intro e he
    unfold run_audit
    rw [he]
  · intro tid cost hsub hto
    unfold run_audit
    rw [hsub]
    simp [hto]
  · intro tid cost e hsub hready he
    unfold run_audit
    rw [hsub]
    simp [hready, he]
  · intro tid cost s e hsub hready hs hf
    unfold run_audit
    rw [hsub]
    simp [hready, hs, hf]
  · intro hw
    cases hsub : prov.submit domain mp with
    | err e =>
      simp [run_audit, hsub] at hw
    | ok tid cost =>
      cases hready : (poll (prov.status tid) 0 maxAttempts).2 with
      | false =>
        simp [run_audit, hsub, hready] at hw
      | true =>
        cases hs : prov.summary tid with
        | err e =>
          simp [run_audit, hsub, hready, hs] at hw
        | ok s =>
          cases hf : prov.findings tid 100 with
          | err e =>
            simp [run_audit, hsub, hready, hs, hf] at hw
          | ok pages =>
            cases hcid : strTruthy cid with
            | false =>
              simp [run_audit, hsub, hready, hs, hf, hcid] at hw
            | true =>
              exact ⟨rfl, tid, cost, s, pages, rfl, hready, hs, hf⟩

/-- Witness for C10 on a concrete rejected submission: the runner
returns the provider's error untouched and the trace shows zero polls
and zero write attempts. -/
theorem c10_witness :
    provSubmitErr.submit "example.com" 200 = .err "quota exceeded"
    ∧ run_audit provSubmitErr storeOk "example.com" 200 (some "c1")
        = (.failure "quota exceeded", ⟨0, [], 0⟩) :=
  ⟨rfl, (c10_failure_paths_no_writes provSubmitErr storeOk "example.com" 200
      (some "c1")).1 "quota exceeded" rfl⟩

end Audit
